import Mathlib

/-
Shallow embedding of nwforrer/crop_time_rs, src/main.rs: a small top-down
farming game written against the Bevy 0.6 ECS engine.

Modelling conventions:
* f32 values (positions, hydration, timer seconds) are modelled by exact
  rationals.  The player-movement system additionally needs the square root
  of 2 (diagonal normalization), so its vectors live over the quadratic
  extension Q adjoin sqrt 2, represented by the type Q2 below.
* Rust panics (unwrap, Query::single on a non-singleton, integer remainder
  by zero) are modelled by Option.none in the whole-system wrappers; the
  per-entity bodies are total functions.
* Engine helpers that the source calls (Timer.tick/finished and
  bevy_sprite::collide_aabb::collide) are modelled from the engine's 0.6
  behaviour; collide's side classification is omitted because the source
  only tests is_some on the result.
-/

set_option autoImplicit false

/-- SCALE constant of src/main.rs. -/
def SCALE : ℚ := 3

/-- TILE_SIZE constant of src/main.rs: SCALE * 16.0 = 48. -/
def TILE_SIZE : ℚ := SCALE * 16

/-- PLAYER_SIZE constant of src/main.rs: SCALE * 32.0 = 96. -/
def PLAYER_SIZE : ℚ := SCALE * 32

/-- TIME_STEP constant of src/main.rs: 1.0 / 60.0. -/
def TIME_STEP : ℚ := 1 / 60

/-- A 2d vector of exact rationals, modelling glam Vec2. -/
structure Vec2 where
  x : ℚ
  y : ℚ
deriving DecidableEq

/-- Vec2.splat. -/
def Vec2.splat (c : ℚ) : Vec2 := ⟨c, c⟩

/-- A 3d vector of exact rationals, modelling glam Vec3. -/
structure Vec3 where
  x : ℚ
  y : ℚ
  z : ℚ
deriving DecidableEq

/-- Componentwise vector addition. -/
def Vec3.add (u v : Vec3) : Vec3 := ⟨u.x + v.x, u.y + v.y, u.z + v.z⟩

/-- Division of a vector by a scalar, componentwise. -/
def Vec3.divScalar (v : Vec3) (c : ℚ) : Vec3 := ⟨v.x / c, v.y / c, v.z / c⟩

/-- Multiplication of a vector by a scalar, componentwise. -/
def Vec3.mulScalar (v : Vec3) (c : ℚ) : Vec3 := ⟨v.x * c, v.y * c, v.z * c⟩

/-- Componentwise floor, modelling glam Vec3::floor. -/
def Vec3.floor (v : Vec3) : Vec3 := ⟨(⌊v.x⌋ : ℚ), (⌊v.y⌋ : ℚ), (⌊v.z⌋ : ℚ)⟩

/-- pixel_to_tile_coord from src/main.rs lines 442-446: divide by TILE_SIZE,
floor, multiply back, keeping the original z. -/
def pixel_to_tile_coord (pos : Vec3) : Vec3 :=
  let tile := pos.divScalar TILE_SIZE
  let tile_pos := (tile.floor).mulScalar TILE_SIZE
  ⟨tile_pos.x, tile_pos.y, pos.z⟩

/-- The FollowTarget component from src/main.rs. -/
structure FollowTarget where
  target : Vec3
  offset : Vec3
  flip_x : Bool
  grid_snap : Bool
deriving DecidableEq

/-- The position computed by follow_system before optional grid snapping:
target plus the flip-adjusted offset (src/main.rs lines 161-167). -/
def followPos (f : FollowTarget) : Vec3 :=
  let flip : ℚ := if f.flip_x then -1 else 1
  let offset : Vec3 := ⟨flip * f.offset.x - TILE_SIZE / 2, f.offset.y, f.offset.z⟩
  f.target.add offset

/-- Per-entity body of follow_system (src/main.rs lines 159-174): the new
translation of an entity carrying a FollowTarget. -/
def followStep (f : FollowTarget) : Vec3 :=
  let pos := followPos f
  if f.grid_snap then pixel_to_tile_coord pos else pos

/-- follow_system over the whole query: each followed entity's translation is
overwritten by followStep. -/
def follow_system (fs : List (Vec3 × FollowTarget)) : List (Vec3 × FollowTarget) :=
  fs.map (fun p => (followStep p.2, p.2))

/-- The state of a bevy 0.6 Timer: elapsed seconds, duration, whether it
repeats, and the finished flag reported by Timer::finished().  The paused
flag and times_finished counter are omitted: the source never touches them. -/
structure Timer where
  elapsed : ℚ
  duration : ℚ
  repeating : Bool
  finished : Bool
deriving DecidableEq

/-- Timer::tick from bevy 0.6: add the delta to elapsed, set the finished
flag when the duration is reached, and wrap the elapsed time for repeating
timers (f32 remainder, which agrees with floor-remainder on the nonnegative
values arising here). -/
def Timer.tick (t : Timer) (delta : ℚ) : Timer :=
  let e := t.elapsed + delta
  if t.duration ≤ e then
    if t.repeating then
      ⟨e - t.duration * (⌊e / t.duration⌋ : ℚ), t.duration, t.repeating, true⟩
    else
      ⟨t.duration, t.duration, t.repeating, true⟩
  else
    ⟨e, t.duration, t.repeating, false⟩

/-- The Growable component from src/main.rs.  The u32 fields are modelled by
naturals; the only increment is guarded by growth_state < max_growth_state,
so no wrap-around at 2 to the 32 is reachable. -/
structure Growable where
  growth_state : ℕ
  max_growth_state : ℕ
deriving DecidableEq

/-- One row of grow_system's query: the crop's Timer, its sprite index
(usize), its Growable component, and its Hydration component (f32). -/
structure CropEnt where
  timer : Timer
  spriteIndex : ℕ
  growable : Growable
  hydration : ℚ
deriving DecidableEq

/-- The growth condition of grow_system (src/main.rs line 121-122): the
ticked timer finished this tick, the crop is not fully grown, and it is
hydrated. -/
def growCond (delta : ℚ) (c : CropEnt) : Prop :=
  (c.timer.tick delta).finished = true
  ∧ c.growable.growth_state < c.growable.max_growth_state
  ∧ c.hydration ≥ 1

instance (delta : ℚ) (c : CropEnt) : Decidable (growCond delta c) := by
  unfold growCond; infer_instance

/-- Per-entity body of grow_system (src/main.rs lines 119-130): tick the
timer; if it finished and the crop can grow and is hydrated, increment
growth_state, set the sprite index to the new growth_state, and reset
hydration to 0. -/
def growStep (delta : ℚ) (c : CropEnt) : CropEnt :=
  if (c.timer.tick delta).finished then
    if c.growable.growth_state < c.growable.max_growth_state ∧ c.hydration ≥ 1 then
      { c with timer := c.timer.tick delta,
               spriteIndex := c.growable.growth_state + 1,
               growable := ⟨c.growable.growth_state + 1, c.growable.max_growth_state⟩,
               hydration := 0 }
    else { c with timer := c.timer.tick delta }
  else { c with timer := c.timer.tick delta }

/-- grow_system over the whole query (src/main.rs lines 108-131). -/
def grow_system (delta : ℚ) (cs : List CropEnt) : List CropEnt :=
  cs.map (growStep delta)

/-- Iterated frames of grow_system acting on one crop, one time delta per
frame. -/
def iterateGrow (ds : List ℚ) (c : CropEnt) : CropEnt :=
  ds.foldl (fun c d => growStep d c) c

/-- One row of animate_sprite_system's query: Timer, sprite index, a handle
to the entity's texture atlas (modelled as a natural), and the Animation
flag component. -/
structure AnimEnt where
  timer : Timer
  spriteIndex : ℕ
  atlasHandle : ℕ
  animation : Bool
deriving DecidableEq

/-- Per-entity body of animate_sprite_system (src/main.rs lines 95-105).
The atlas store maps a handle to the texture count of the atlas; none means
the handle does not resolve.  Option.none output models a Rust panic: the
unwrap of the atlas lookup, or the remainder by zero when the atlas has no
textures. -/
def animStep (delta : ℚ) (atlases : ℕ → Option ℕ) (e : AnimEnt) : Option AnimEnt :=
  if (e.timer.tick delta).finished then
    if e.animation then
      (atlases e.atlasHandle).bind (fun len =>
        if len = 0 then none
        else some { e with timer := e.timer.tick delta,
                           spriteIndex := (e.spriteIndex + 1) % len })
    else some { e with timer := e.timer.tick delta, spriteIndex := 0 }
  else some { e with timer := e.timer.tick delta }

/-- animate_sprite_system over the whole query (src/main.rs lines 85-106);
none propagates a per-entity panic. -/
def animate_sprite_system (delta : ℚ) (atlases : ℕ → Option ℕ) :
    List AnimEnt → Option (List AnimEnt)
  | [] => some []
  | e :: es =>
    match animStep delta atlases e, animate_sprite_system delta atlases es with
    | some e2, some es2 => some (e2 :: es2)
    | _, _ => none

/-- Query::single of bevy 0.6: returns the unique query row, and panics
(modelled by none) unless the query matches exactly one entity. -/
def querySingle {α : Type} : List α → Option α
  | [x] => some x
  | _ => none

/-- bevy_sprite::collide_aabb::collide from bevy 0.6, modelled from the
engine: the rectangles centred at a_pos and b_pos with sizes a_size and
b_size strictly overlap on both axes.  The engine also classifies which side
was hit; the source only tests is_some, so the side value is elided. -/
def collide (a_pos : Vec3) (a_size : Vec2) (b_pos : Vec3) (b_size : Vec2) : Option Unit :=
  let a_min : Vec2 := ⟨a_pos.x - a_size.x / 2, a_pos.y - a_size.y / 2⟩
  let a_max : Vec2 := ⟨a_pos.x + a_size.x / 2, a_pos.y + a_size.y / 2⟩
  let b_min : Vec2 := ⟨b_pos.x - b_size.x / 2, b_pos.y - b_size.y / 2⟩
  let b_max : Vec2 := ⟨b_pos.x + b_size.x / 2, b_pos.y + b_size.y / 2⟩
  if a_min.x < b_max.x ∧ a_max.x > b_min.x ∧ a_min.y < b_max.y ∧ a_max.y > b_min.y then
    some ()
  else
    none

/-- The CollisionLayer enum from src/main.rs with its default discriminants
(the source casts the variants with as u32, so Environment = 0,
Characters = 1, Tools = 2; these are not one-hot bit masks). -/
inductive CollisionLayer
  | Environment
  | Characters
  | Tools
deriving DecidableEq

/-- The as u32 cast of a CollisionLayer variant. -/
def CollisionLayer.asU32 : CollisionLayer → ℕ
  | .Environment => 0
  | .Characters => 1
  | .Tools => 2

/-- The CollisionConfig component from src/main.rs. -/
structure CollisionConfig where
  layer : ℕ
  mask : ℕ
deriving DecidableEq

/-- One row of pickup_system's col_query: an entity without a FollowTarget,
with its translation and CollisionConfig. -/
structure ColEnt where
  translation : Vec3
  collision_config : CollisionConfig
deriving DecidableEq

/-- The per-entity equip condition of pickup_system (src/main.rs lines
245-254): the AABB test between the player square of side PLAYER_SIZE and
the entity square of side TILE_SIZE returns Some, the entity layer ANDed
with the player mask is nonzero, and the entity layer ANDed with the Tools
discriminant is nonzero. -/
def pickupCond (player_translation : Vec3) (player_col_config : CollisionConfig)
    (e : ColEnt) : Bool :=
  (collide player_translation (Vec2.splat PLAYER_SIZE)
      e.translation (Vec2.splat TILE_SIZE)).isSome
    && decide (Nat.land e.collision_config.layer player_col_config.mask ≠ 0)
    && decide (Nat.land e.collision_config.layer CollisionLayer.Tools.asU32 ≠ 0)

/-- The command effects of one frame of pickup_system: which candidate
entities get a FollowTarget inserted, and whether the currently equipped
tools have their FollowTarget removed. -/
structure PickupResult where
  equipped : List ColEnt
  unequipActive : Bool
deriving DecidableEq

/-- pickup_system (src/main.rs lines 235-267) given the player row: when E
was just pressed, every candidate entity satisfying pickupCond is equipped
(and each match also removes the FollowTarget of the previously active
tools); otherwise nothing happens. -/
def pickup_system (eJustPressed : Bool) (player : Vec3 × CollisionConfig)
    (ents : List ColEnt) : PickupResult :=
  if eJustPressed then
    ⟨ents.filter (fun e => pickupCond player.1 player.2 e),
     ents.any (fun e => pickupCond player.1 player.2 e)⟩
  else
    ⟨[], false⟩

/-- pickup_system including the player_query.single() call, which is only
evaluated when E was just pressed; none models its panic. -/
def pickup_system_run (eJustPressed : Bool) (players : List (Vec3 × CollisionConfig))
    (ents : List ColEnt) : Option PickupResult :=
  if eJustPressed then
    (querySingle players).map (fun p => pickup_system eJustPressed p ents)
  else
    some ⟨[], false⟩

/-- One row of use_tool_system's crop query together with the crop's
Growable component (the query reads only the Transform and Hydration; the
Growable field records that the system cannot touch it). -/
structure CropState where
  translation : Vec3
  hydration : ℚ
  growable : Growable
deriving DecidableEq

/-- The position comparison of use_tool_system (src/main.rs lines 190-192
and 224-226): both translations with z zeroed, compared exactly. -/
def sameTile (a b : Vec3) : Bool :=
  decide ((⟨a.x, a.y, 0⟩ : Vec3) = ⟨b.x, b.y, 0⟩)

/-- A crop entity as spawned by use_tool_system (src/main.rs lines 198-215):
translation copied from the highlight, growth_state 0, max_growth_state 2,
hydration 0, and a repeating 5 second timer. -/
structure SpawnedCrop where
  translation : Vec3
  growable : Growable
  hydration : ℚ
  timer : Timer
deriving DecidableEq

/-- The crop bundle spawned at a translation. -/
def newCrop (t : Vec3) : SpawnedCrop :=
  ⟨t, ⟨0, 2⟩, 0, ⟨0, 5, true, false⟩⟩

/-- The crop-query view of a spawned crop. -/
def SpawnedCrop.toCropState (s : SpawnedCrop) : CropState :=
  ⟨s.translation, s.hydration, s.growable⟩

/-- use_tool_system (src/main.rs lines 176-233) for one equipped tool whose
WaterPlantTool and PlantSeedTool markers are given as the two flags (in any
reachable state at most one entity is equipped; the highlight, which also
carries a FollowTarget, has both markers absent).  Returns the updated crops
and the optionally spawned crop.  The plant branch spawns at the highlight
translation only when no existing crop shares its (x, y); the water branch
sets hydration to 1 for every crop sharing the highlight's (x, y). -/
def use_tool_system (returnJustPressed : Bool) (water_tool plant_tool : Bool)
    (highlight : Vec3) (crops : List CropState) : List CropState × Option SpawnedCrop :=
  let spawn : Option SpawnedCrop :=
    if plant_tool then
      if returnJustPressed then
        let free_slot := crops.all (fun c => !(sameTile c.translation highlight))
        if free_slot then some (newCrop highlight) else none
      else none
    else none
  let crops2 : List CropState :=
    if water_tool then
      if returnJustPressed then
        crops.map (fun c =>
          if sameTile c.translation highlight then { c with hydration := 1 } else c)
      else crops
    else crops
  (crops2, spawn)

/-- use_tool_system including the highlight query.single() calls.  The plant
branch evaluates single() whenever the seed tool is equipped (before the
keyboard test, src/main.rs line 186); the water branch evaluates it only
after Return was just pressed (line 222).  none models the panic when the
highlight query is not a singleton. -/
def use_tool_system_run (returnJustPressed : Bool) (water_tool plant_tool : Bool)
    (highlights : List Vec3) (crops : List CropState) :
    Option (List CropState × Option SpawnedCrop) :=
  if plant_tool = true ∨ (water_tool = true ∧ returnJustPressed = true) then
    (querySingle highlights).map
      (fun h => use_tool_system returnJustPressed water_tool plant_tool h crops)
  else
    some (use_tool_system returnJustPressed water_tool plant_tool ⟨0, 0, 0⟩ crops)

/-- The player row read by update_follow_system: the sprite's flip_x and the
player transform's translation. -/
structure PlayerView where
  flip_x : Bool
  translation : Vec3
deriving DecidableEq

/-- Per-entity body of update_follow_system (src/main.rs lines 150-156):
copy the player translation, push it up and right by PLAYER_SIZE / 4, force
z to 1, and copy the sprite flip. -/
def updateFollowStep (p : PlayerView) (f : FollowTarget) : FollowTarget :=
  { f with
      target := ⟨p.translation.x + PLAYER_SIZE / 4, p.translation.y + PLAYER_SIZE / 4, 1⟩,
      flip_x := p.flip_x }

/-- update_follow_system (src/main.rs lines 145-157) including the player
query.single() call; none models its panic. -/
def update_follow_system (players : List PlayerView) (fs : List FollowTarget) :
    Option (List FollowTarget) :=
  (querySingle players).map (fun p => fs.map (updateFollowStep p))

/-- The primary window resource: width and height in pixels. -/
structure Window where
  width : ℚ
  height : ℚ
deriving DecidableEq

/-- get_primary_window_size (src/main.rs lines 436-440): unwraps the primary
window; none models the panic when there is no primary window. -/
def get_primary_window_size (windows : Option Window) : Option Vec2 :=
  windows.map (fun w => ⟨w.width, w.height⟩)

/-- An element a + b sqrt 2 of the quadratic field Q adjoin sqrt 2,
represented by its rational coordinates.  The representation is unique
because sqrt 2 is irrational, so structural equality is field equality. -/
structure Q2 where
  a : ℚ
  b : ℚ
deriving DecidableEq

/-- Embedding of a rational. -/
def Q2.ofRat (q : ℚ) : Q2 := ⟨q, 0⟩

/-- Zero of Q2. -/
def Q2.zero : Q2 := ⟨0, 0⟩

/-- Addition in Q2. -/
def Q2.add (x y : Q2) : Q2 := ⟨x.a + y.a, x.b + y.b⟩

/-- Subtraction in Q2. -/
def Q2.sub (x y : Q2) : Q2 := ⟨x.a - y.a, x.b - y.b⟩

/-- Multiplication in Q2: (a + b s)(c + d s) = (ac + 2bd) + (ad + bc) s
where s * s = 2. -/
def Q2.mul (x y : Q2) : Q2 := ⟨x.a * y.a + 2 * x.b * y.b, x.a * y.b + x.b * y.a⟩

/-- Multiplicative inverse in Q2, by the conjugate; maps 0 to 0. -/
def Q2.inv (x : Q2) : Q2 :=
  ⟨x.a / (x.a ^ 2 - 2 * x.b ^ 2), -x.b / (x.a ^ 2 - 2 * x.b ^ 2)⟩

/-- Whether a + b sqrt 2 is nonnegative as a real number, decided by sign
analysis of the coordinates. -/
def Q2.nonneg (x : Q2) : Bool :=
  if 0 ≤ x.a then
    if 0 ≤ x.b then true else decide (2 * x.b ^ 2 ≤ x.a ^ 2)
  else
    if 0 ≤ x.b then decide (x.a ^ 2 ≤ 2 * x.b ^ 2) else false

/-- Strict order on Q2 as real numbers. -/
def Q2.blt (x y : Q2) : Bool := Q2.nonneg (y.sub x) && decide (x ≠ y)

/-- Square root on Q2, exact for rational arguments of the form r * r or
2 * r * r with r a nonnegative rational, and 0 elsewhere.  The engine
computes an f32 square root; every length in this program is of one of the
two exact shapes (the movement directions have squared length 0, 1 or 2 and
the scaled displacements have rational squared length), so the idealization
is exact on all reachable inputs. -/
def Q2.sqrt (x : Q2) : Q2 :=
  if x.b = 0 then
    let r := Rat.sqrt x.a
    if r * r = x.a then ⟨r, 0⟩
    else
      let s := Rat.sqrt (x.a / 2)
      if 2 * (s * s) = x.a then ⟨0, s⟩ else ⟨0, 0⟩
  else ⟨0, 0⟩

/-- A 3d vector over Q2, used for the player-movement system where diagonal
normalization introduces sqrt 2. -/
structure Vec3Q2 where
  x : Q2
  y : Q2
  z : Q2
deriving DecidableEq

/-- Zero vector. -/
def Vec3Q2.zero : Vec3Q2 := ⟨Q2.zero, Q2.zero, Q2.zero⟩

/-- Componentwise addition. -/
def Vec3Q2.add (u v : Vec3Q2) : Vec3Q2 := ⟨u.x.add v.x, u.y.add v.y, u.z.add v.z⟩

/-- Componentwise subtraction. -/
def Vec3Q2.sub (u v : Vec3Q2) : Vec3Q2 := ⟨u.x.sub v.x, u.y.sub v.y, u.z.sub v.z⟩

/-- Multiplication of every component by a Q2 scalar. -/
def Vec3Q2.scale (v : Vec3Q2) (c : Q2) : Vec3Q2 := ⟨v.x.mul c, v.y.mul c, v.z.mul c⟩

/-- Squared euclidean length. -/
def Vec3Q2.lengthSq (v : Vec3Q2) : Q2 :=
  (v.x.mul v.x).add ((v.y.mul v.y).add (v.z.mul v.z))

/-- glam Vec3::length. -/
def Vec3Q2.length (v : Vec3Q2) : Q2 := Q2.sqrt v.lengthSq

/-- glam Vec3::normalize_or_zero, idealized over exact arithmetic: the unit
vector in the direction of v when v is nonzero, and zero otherwise. -/
def Vec3Q2.normalize_or_zero (v : Vec3Q2) : Vec3Q2 :=
  if v = Vec3Q2.zero then Vec3Q2.zero else v.scale (Q2.inv v.length)

/-- The action names that action_pressed (src/main.rs lines 133-143)
recognizes.  The source matches on string literals with a catch-all false
arm; the four reachable names are modelled as an enumeration. -/
inductive ActionName
  | move_left
  | move_right
  | move_up
  | move_down
deriving DecidableEq

/-- The pressed state of the eight movement keys polled by action_pressed. -/
structure KeyInput where
  left : Bool
  a : Bool
  right : Bool
  d : Bool
  up : Bool
  w : Bool
  down : Bool
  s : Bool
deriving DecidableEq

/-- action_pressed from src/main.rs lines 133-143: each action is pressed
when either of its two keys is pressed. -/
def action_pressed (name : ActionName) (kb : KeyInput) : Bool :=
  match name with
  | .move_left => kb.left || kb.a
  | .move_right => kb.right || kb.d
  | .move_up => kb.up || kb.w
  | .move_down => kb.down || kb.s

/-- The direction vector accumulated by player_movement_system (src/main.rs
lines 274-288): start from zero, subtract or add one on each axis per
pressed action, in source order. -/
def playerDirection (kb : KeyInput) : Vec3Q2 :=
  let d0 := Vec3Q2.zero
  let d1 := if action_pressed ActionName.move_left kb
            then { d0 with x := d0.x.sub (Q2.ofRat 1) } else d0
  let d2 := if action_pressed ActionName.move_right kb
            then { d1 with x := d1.x.add (Q2.ofRat 1) } else d1
  let d3 := if action_pressed ActionName.move_up kb
            then { d2 with y := d2.y.add (Q2.ofRat 1) } else d2
  if action_pressed ActionName.move_down kb
  then { d3 with y := d3.y.sub (Q2.ofRat 1) } else d3

/-- The sprite flip updates of player_movement_system: move_left clears
flip_x, then move_right sets it. -/
def playerFlip (kb : KeyInput) (flip : Bool) : Bool :=
  let f1 := if action_pressed ActionName.move_left kb then false else flip
  if action_pressed ActionName.move_right kb then true else f1

/-- The player components mutated by player_movement_system. -/
structure PlayerMoveState where
  translation : Vec3Q2
  flip_x : Bool
  animation : Bool
deriving DecidableEq

/-- player_movement_system (src/main.rs lines 269-294) on the single player:
accumulate the direction and flips, set the Animation flag to whether the
direction length exceeds 0.1, and add the normalized direction times
250 * TIME_STEP to the translation. -/
def player_movement_system (kb : KeyInput) (st : PlayerMoveState) : PlayerMoveState :=
  { translation :=
      st.translation.add
        (((playerDirection kb).normalize_or_zero).scale (Q2.ofRat (250 * TIME_STEP))),
    flip_x := playerFlip kb st.flip_x,
    animation := Q2.blt (Q2.ofRat (1 / 10)) (playerDirection kb).length }

/-- player_movement_system including the query.single_mut() call; none
models its panic when the player query is not a singleton. -/
def player_movement_system_run (kb : KeyInput) (players : List PlayerMoveState) :
    Option PlayerMoveState :=
  (querySingle players).map (player_movement_system kb)

/-- The nine direction vectors player_movement_system can accumulate. -/
def directionList : List Vec3Q2 :=
  [⟨⟨0, 0⟩, ⟨0, 0⟩, ⟨0, 0⟩⟩,
   ⟨⟨-1, 0⟩, ⟨0, 0⟩, ⟨0, 0⟩⟩,
   ⟨⟨1, 0⟩, ⟨0, 0⟩, ⟨0, 0⟩⟩,
   ⟨⟨0, 0⟩, ⟨1, 0⟩, ⟨0, 0⟩⟩,
   ⟨⟨0, 0⟩, ⟨-1, 0⟩, ⟨0, 0⟩⟩,
   ⟨⟨-1, 0⟩, ⟨1, 0⟩, ⟨0, 0⟩⟩,
   ⟨⟨1, 0⟩, ⟨1, 0⟩, ⟨0, 0⟩⟩,
   ⟨⟨-1, 0⟩, ⟨-1, 0⟩, ⟨0, 0⟩⟩,
   ⟨⟨1, 0⟩, ⟨-1, 0⟩, ⟨0, 0⟩⟩]

/-- A Q2 coordinate that lies on the tile grid: it is rational and an
integer multiple of TILE_SIZE. -/
def TileAligned (q : Q2) : Prop := q.b = 0 ∧ ∃ k : ℤ, q.a = (k : ℚ) * TILE_SIZE

theorem tile_size_ne_zero : TILE_SIZE ≠ 0 := by norm_num [TILE_SIZE, SCALE]

theorem floor_mul_div_self (k : ℤ) : ⌊((k : ℚ) * TILE_SIZE) / TILE_SIZE⌋ = k := by
  rw [mul_div_assoc, div_self tile_size_ne_zero, mul_one, Int.floor_intCast]

/-- C4: pixel_to_tile_coord floors x and y to the tile grid (its x and y
outputs are integer multiples of TILE_SIZE), preserves z, and is idempotent;
followStep applies it to the computed position exactly when the FollowTarget
grid_snap flag is true. -/
theorem pixel_to_tile_coord_spec (p : Vec3) (f : FollowTarget) :
    (∃ k : ℤ, (pixel_to_tile_coord p).x = (k : ℚ) * TILE_SIZE)
    ∧ (∃ k : ℤ, (pixel_to_tile_coord p).y = (k : ℚ) * TILE_SIZE)
    ∧ (pixel_to_tile_coord p).z = p.z
    ∧ pixel_to_tile_coord (pixel_to_tile_coord p) = pixel_to_tile_coord p
    ∧ followStep f = (if f.grid_snap then pixel_to_tile_coord (followPos f) else followPos f) := by
  refine ⟨⟨⌊p.x / TILE_SIZE⌋, rfl⟩, ⟨⌊p.y / TILE_SIZE⌋, rfl⟩, rfl, ?_, rfl⟩
  show Vec3.mk _ _ _ = Vec3.mk _ _ _
  simp only [pixel_to_tile_coord, Vec3.divScalar, Vec3.floor, Vec3.mulScalar, Vec3.mk.injEq]
  exact ⟨by rw [floor_mul_div_self], by rw [floor_mul_div_self], trivial⟩

/-- C1: in grow_system's per-entity step, growth_state increases by exactly 1
with hydration reset to 0 if and only if the ticked timer finished, the crop
is below max_growth_state, and hydration is at least 1; in every other case
the whole entity except the timer is unchanged; and on growth the sprite
index is set to the new growth_state (it is untouched otherwise). -/
theorem grow_system_step (delta : ℚ) (c : CropEnt) :
    (((growStep delta c).growable.growth_state = c.growable.growth_state + 1
        ∧ (growStep delta c).hydration = 0) ↔ growCond delta c)
    ∧ (¬ growCond delta c → growStep delta c = { c with timer := c.timer.tick delta })
    ∧ (growCond delta c →
        (growStep delta c).spriteIndex = (growStep delta c).growable.growth_state
        ∧ (growStep delta c).growable.max_growth_state = c.growable.max_growth_state) := by
  unfold growStep growCond
  by_cases h1 : (c.timer.tick delta).finished = true
  · by_cases h2 : c.growable.growth_state < c.growable.max_growth_state ∧ c.hydration ≥ 1
    · rw [if_pos h1, if_pos h2]
      refine ⟨⟨fun _ => ⟨h1, h2.1, h2.2⟩, fun _ => ⟨rfl, rfl⟩⟩, ?_, fun _ => ⟨rfl, rfl⟩⟩
      intro hnc; exact absurd ⟨h1, h2.1, h2.2⟩ hnc
    · rw [if_pos h1, if_neg h2]
      refine ⟨⟨?_, ?_⟩, fun _ => rfl, ?_⟩
      · rintro ⟨hg, -⟩; exact absurd hg.symm (Nat.succ_ne_self _)
      · rintro ⟨-, hlt, hhy⟩; exact absurd ⟨hlt, hhy⟩ h2
      · rintro ⟨-, hlt, hhy⟩; exact absurd ⟨hlt, hhy⟩ h2
  · rw [if_neg h1]
    refine ⟨⟨?_, ?_⟩, fun _ => rfl, ?_⟩
    · rintro ⟨hg, -⟩; exact absurd hg.symm (Nat.succ_ne_self _)
    · rintro ⟨hf, -⟩; exact absurd hf h1
    · rintro ⟨hf, -⟩; exact absurd hf h1

/-- C3: in animate_sprite_system's per-entity step, when the entity's atlas
handle resolves to an atlas with a positive number of textures, the step
succeeds, and: if the ticked timer finished and the Animation flag is true
the new sprite index is (old + 1) mod the texture count, hence strictly
below it; if the timer finished and the flag is false the index is set to 0;
if the timer did not finish the index is unchanged. -/
theorem animate_sprite_step (delta : ℚ) (atlases : ℕ → Option ℕ) (e : AnimEnt) (len : ℕ)
    (hA : atlases e.atlasHandle = some len) (hlen : 0 < len) :
    ∃ e2, animStep delta atlases e = some e2
      ∧ ((e.timer.tick delta).finished = true → e.animation = true →
          e2.spriteIndex = (e.spriteIndex + 1) % len ∧ e2.spriteIndex < len)
      ∧ ((e.timer.tick delta).finished = true → e.animation = false → e2.spriteIndex = 0)
      ∧ ((e.timer.tick delta).finished = false → e2.spriteIndex = e.spriteIndex) := by
  unfold animStep
  by_cases hf : (e.timer.tick delta).finished = true
  · rw [if_pos hf]
    by_cases ha : e.animation = true
    · rw [if_pos ha, hA, Option.some_bind]
      rw [if_neg (Nat.pos_iff_ne_zero.mp hlen)]
      refine ⟨_, rfl, fun _ _ => ⟨rfl, Nat.mod_lt _ hlen⟩, ?_, ?_⟩
      · intro _ hna; rw [ha] at hna; exact Bool.noConfusion hna
      · intro hnf; rw [hf] at hnf; exact Bool.noConfusion hnf
    · rw [if_neg ha]
      refine ⟨_, rfl, ?_, fun _ _ => rfl, ?_⟩
      · intro _ ha2; exact absurd ha2 ha
      · intro hnf; rw [hf] at hnf; exact Bool.noConfusion hnf
  · rw [if_neg hf]
    refine ⟨_, rfl, ?_, ?_, fun _ => rfl⟩
    · intro hf2 _; exact absurd hf2 hf
    · intro hf2 _; exact absurd hf2 hf

/-- C2: pickup_system inserts a FollowTarget on a candidate entity if and
only if E was just pressed, the AABB test between the player square of side
PLAYER_SIZE and the entity square of side TILE_SIZE returns Some, the entity
layer ANDed with the player mask is nonzero, and the entity layer ANDed with
the Tools discriminant is nonzero; no entity is equipped when E was not just
pressed. -/
theorem pickup_equips_iff (eJust : Bool) (player : Vec3 × CollisionConfig)
    (ents : List ColEnt) (ent : ColEnt) :
    ent ∈ (pickup_system eJust player ents).equipped
      ↔ eJust = true ∧ ent ∈ ents
        ∧ (collide player.1 (Vec2.splat PLAYER_SIZE)
            ent.translation (Vec2.splat TILE_SIZE)).isSome = true
        ∧ Nat.land ent.collision_config.layer player.2.mask ≠ 0
        ∧ Nat.land ent.collision_config.layer CollisionLayer.Tools.asU32 ≠ 0 := by
  cases eJust
  · simp [pickup_system]
  · simp [pickup_system, List.mem_filter, pickupCond, and_assoc]

theorem growStep_fixed (delta : ℚ) (c : CropEnt)
    (hmax : c.growable.growth_state = c.growable.max_growth_state) :
    growStep delta c = { c with timer := c.timer.tick delta } := by
  unfold growStep
  have hnot : ¬(c.growable.growth_state < c.growable.max_growth_state ∧ c.hydration ≥ 1) := by
    rintro ⟨hlt, -⟩; omega
  by_cases hf : (c.timer.tick delta).finished = true
  · rw [if_pos hf, if_neg hnot]
  · rw [if_neg hf]

theorem iterateGrow_fixed (ds : List ℚ) : ∀ c : CropEnt,
    c.growable.growth_state = c.growable.max_growth_state →
    (iterateGrow ds c).growable = c.growable
      ∧ (iterateGrow ds c).spriteIndex = c.spriteIndex
      ∧ (iterateGrow ds c).hydration = c.hydration := by
  induction ds with
  | nil => exact fun c _ => ⟨rfl, rfl, rfl⟩
  | cons d ds ih =>
    intro c h
    have hstep := growStep_fixed d c h
    have h2 : (growStep d c).growable.growth_state
        = (growStep d c).growable.max_growth_state := by rw [hstep]; exact h
    have hih := ih (growStep d c) h2
    simp only [iterateGrow, List.foldl_cons] at hih ⊢
    refine ⟨?_, ?_, ?_⟩
    · rw [hih.1, hstep]
    · rw [hih.2.1, hstep]
    · rw [hih.2.2, hstep]

/-- C8: crops are spawned with growth_state 0 and max_growth_state 2, so the
invariant growth_state at most max_growth_state holds initially; growStep
preserves the invariant; and once growth_state equals max_growth_state, any
number of grow_system frames leaves the Growable component, the sprite index
and the hydration unchanged. -/
theorem growable_invariant (delta : ℚ) (c : CropEnt) (t : Vec3)
    (hinv : c.growable.growth_state ≤ c.growable.max_growth_state) :
    ((newCrop t).growable.growth_state = 0 ∧ (newCrop t).growable.max_growth_state = 2)
    ∧ (growStep delta c).growable.growth_state ≤ (growStep delta c).growable.max_growth_state
    ∧ (c.growable.growth_state = c.growable.max_growth_state →
        ∀ ds : List ℚ, (iterateGrow ds c).growable = c.growable
          ∧ (iterateGrow ds c).spriteIndex = c.spriteIndex
          ∧ (iterateGrow ds c).hydration = c.hydration) := by
  refine ⟨⟨rfl, rfl⟩, ?_, fun hmax ds => iterateGrow_fixed ds c hmax⟩
  unfold growStep
  by_cases hf : (c.timer.tick delta).finished = true
  · by_cases h2 : c.growable.growth_state < c.growable.max_growth_state ∧ c.hydration ≥ 1
    · rw [if_pos hf, if_pos h2]
      exact h2.1
    · rw [if_pos hf, if_neg h2]
      exact hinv
  · rw [if_neg hf]
    exact hinv

/-- C9: with the seed tool equipped, use_tool_system spawns a crop if and
only if Return was just pressed and no existing crop shares the highlight's
(x, y); the existing crops are untouched by the seed branch; and
distinctness of crop positions is preserved, so at most one crop exists per
tile position. -/
theorem seed_spawn_iff (ret : Bool) (h : Vec3) (crops : List CropState)
    (hdist : crops.Pairwise (fun c1 c2 => sameTile c1.translation c2.translation = false)) :
    ((use_tool_system ret false true h crops).2.isSome = true
        ↔ (ret = true ∧ ∀ c ∈ crops, sameTile c.translation h = false))
    ∧ (use_tool_system ret false true h crops).1 = crops
    ∧ ((use_tool_system ret false true h crops).1
          ++ ((use_tool_system ret false true h crops).2.map SpawnedCrop.toCropState).toList).Pairwise
        (fun c1 c2 => sameTile c1.translation c2.translation = false) := by
  unfold use_tool_system
  cases ret
  · simpa using hdist
  · by_cases hfree : crops.all (fun c => !(sameTile c.translation h)) = true
    · have hall : ∀ c ∈ crops, sameTile c.translation h = false := by
        intro c hc
        simpa using (List.all_eq_true.mp hfree) c hc
      refine ⟨?_, by simp, ?_⟩
      · simp [hfree]
        exact hall
      · simp [hfree, List.pairwise_append, hdist, SpawnedCrop.toCropState, newCrop]
        exact hall
    · have hex : ¬ ∀ c ∈ crops, sameTile c.translation h = false := by
        intro hall
        exact hfree (List.all_eq_true.mpr (fun c hc => by simp [hall c hc]))
      refine ⟨?_, by simp, ?_⟩
      · simp [hfree, hex]
      · simpa [hfree] using hdist

/-- C10: with the water tool equipped and Return just pressed,
use_tool_system sets hydration to 1 for exactly the crops whose (x, y)
equals the highlight's (x, y), leaving every crop's translation and Growable
component, and every other crop's hydration, unchanged, and spawning
nothing. -/
theorem water_sets_hydration (h : Vec3) (crops : List CropState) (i : ℕ)
    (hi : i < crops.length) :
    (use_tool_system true true false h crops).1.length = crops.length
    ∧ (use_tool_system true true false h crops).2 = none
    ∧ (use_tool_system true true false h crops).1[i]? =
        some { crops.get ⟨i, hi⟩ with
               hydration := if sameTile (crops.get ⟨i, hi⟩).translation h = true then 1
                            else (crops.get ⟨i, hi⟩).hydration } := by
  refine ⟨by simp [use_tool_system], by simp [use_tool_system], ?_⟩
  have h1 : (use_tool_system true true false h crops).1
      = crops.map (fun c =>
          if sameTile c.translation h then { c with hydration := 1 } else c) := by
    simp [use_tool_system]
  rw [h1, List.getElem?_map, List.getElem?_eq_getElem hi]
  by_cases hs : sameTile crops[i].translation h = true
  · simp [hs]
  · simp [hs]

theorem animStep_isSome (delta : ℚ) (atlases : ℕ → Option ℕ) (e : AnimEnt)
    (hA : ∃ len, atlases e.atlasHandle = some len ∧ 0 < len) :
    (animStep delta atlases e).isSome = true := by
  obtain ⟨len, hA, hlen⟩ := hA
  unfold animStep
  by_cases hf : (e.timer.tick delta).finished = true
  · rw [if_pos hf]
    by_cases ha : e.animation = true
    · rw [if_pos ha, hA, Option.some_bind, if_neg (Nat.pos_iff_ne_zero.mp hlen)]
      rfl
    · rw [if_neg ha]; rfl
  · rw [if_neg hf]; rfl

theorem animate_isSome (delta : ℚ) (atlases : ℕ → Option ℕ) (es : List AnimEnt)
    (h : ∀ e ∈ es, ∃ len, atlases e.atlasHandle = some len ∧ 0 < len) :
    (animate_sprite_system delta atlases es).isSome = true := by
  induction es with
  | nil => rfl
  | cons e es ih =>
    have he := animStep_isSome delta atlases e (h e (List.mem_cons_self e es))
    have hes := ih (fun x hx => h x (List.mem_cons_of_mem e hx))
    obtain ⟨e2, he2⟩ := Option.isSome_iff_exists.mp he
    obtain ⟨es2, hes2⟩ := Option.isSome_iff_exists.mp hes
    unfold animate_sprite_system
    rw [he2, hes2]
    rfl

/-- C7: the per-frame systems are panic-free under the startup
postconditions.  With exactly one Player row, exactly one Highlight row, a
primary window, and every queried atlas handle resolving to an atlas with at
least one texture (setup_player and setup_crop_textures build 4-texture
atlases), every partial operation invoked by the per-frame systems — the
atlas unwrap and remainder in animate_sprite_system, the single-entity
queries of update_follow_system, use_tool_system, pickup_system and
player_movement_system, and the primary-window unwrap — succeeds, for all
inputs; grow_system and follow_system are total functions of their queries
and cannot fail at all. -/
theorem systems_panic_free
    (delta : ℚ) (atlases : ℕ → Option ℕ) (es : List AnimEnt)
    (pv : PlayerView) (fs : List FollowTarget)
    (ret water plant eJust : Bool) (hl : Vec3) (crops : List CropState)
    (pcol : Vec3 × CollisionConfig) (ents : List ColEnt)
    (kb : KeyInput) (pst : PlayerMoveState) (win : Window)
    (hatlas : ∀ e ∈ es, ∃ len, atlases e.atlasHandle = some len ∧ 0 < len) :
    (animate_sprite_system delta atlases es).isSome = true
    ∧ (update_follow_system [pv] fs).isSome = true
    ∧ (use_tool_system_run ret water plant [hl] crops).isSome = true
    ∧ (pickup_system_run eJust [pcol] ents).isSome = true
    ∧ (player_movement_system_run kb [pst]).isSome = true
    ∧ (get_primary_window_size (some win)).isSome = true := by
  refine ⟨animate_isSome delta atlases es hatlas, rfl, ?_, ?_, rfl, rfl⟩
  · cases plant <;> cases water <;> cases ret <;> rfl
  · cases eJust <;> rfl

/-- Witness for C7 at concrete inputs. -/
theorem systems_panic_free_witness :
    (∀ e ∈ [(⟨⟨0, 5, true, false⟩, 2, 7, true⟩ : AnimEnt)],
        ∃ len, (fun _ : ℕ => some 4) e.atlasHandle = some len ∧ 0 < len)
    ∧ ((animate_sprite_system 1 (fun _ => some 4)
          [(⟨⟨0, 5, true, false⟩, 2, 7, true⟩ : AnimEnt)]).isSome = true
        ∧ (update_follow_system [⟨false, ⟨0, 0, 5⟩⟩]
            [⟨⟨0, 0, 0⟩, ⟨-48, 0, 0⟩, false, true⟩]).isSome = true
        ∧ (use_tool_system_run true false true [⟨48, 96, 1⟩] []).isSome = true
        ∧ (pickup_system_run true [(⟨0, 0, 5⟩, ⟨1, 2⟩)] []).isSome = true
        ∧ (player_movement_system_run ⟨false, false, false, false, false, false, false, false⟩
            [⟨⟨⟨0, 0⟩, ⟨0, 0⟩, ⟨5, 0⟩⟩, false, false⟩]).isSome = true
        ∧ (get_primary_window_size (some ⟨960, 540⟩)).isSome = true) :=
  ⟨fun _ _ => ⟨4, rfl, by norm_num⟩,
   systems_panic_free 1 (fun _ => some 4) _ _ _ true false true true _ [] _ [] _ _ _
     (fun _ _ => ⟨4, rfl, by norm_num⟩)⟩

theorem not_rat_sq_two (q : ℚ) : q * q ≠ 2 := by
  intro hq
  have h2 : ((q : ℝ)) ^ 2 = 2 := by
    rw [sq]
    exact_mod_cast hq
  have h3 : Real.sqrt 2 = |(q : ℝ)| := by
    rw [← h2, Real.sqrt_sq_eq_abs]
  have h4 : Irrational (Real.sqrt 2) := irrational_sqrt_two
  rw [h3, ← Rat.cast_abs] at h4
  exact (Rat.not_irrational |q|) h4

theorem Q2.sqrt_sq (r : ℚ) (hr : 0 ≤ r) : Q2.sqrt ⟨r * r, 0⟩ = ⟨r, 0⟩ := by
  have h1 : Rat.sqrt (r * r) = r := by rw [Rat.sqrt_eq, abs_of_nonneg hr]
  simp [Q2.sqrt, h1]

theorem Q2.sqrt_two_mul_sq (r : ℚ) (hr : 0 < r) : Q2.sqrt ⟨2 * (r * r), 0⟩ = ⟨0, r⟩ := by
  have hr0 : r ≠ 0 := hr.ne'
  have hne : Rat.sqrt (2 * (r * r)) * Rat.sqrt (2 * (r * r)) ≠ 2 * (r * r) := by
    intro hsq
    apply not_rat_sq_two (Rat.sqrt (2 * (r * r)) / r)
    rw [div_mul_div_comm, hsq]
    rw [mul_div_assoc]
    rw [div_self (mul_ne_zero hr0 hr0), mul_one]
  have h2 : (2 : ℚ) * (r * r) / 2 = r * r := by ring
  have h3 : Rat.sqrt (r * r) = r := by rw [Rat.sqrt_eq, abs_of_nonneg hr.le]
  simp [Q2.sqrt, hne, h2, h3]

theorem q2_sqrt_zero : Q2.sqrt ⟨0, 0⟩ = ⟨0, 0⟩ := by
  have := Q2.sqrt_sq 0 le_rfl
  norm_num at this
  exact this

theorem q2_sqrt_one : Q2.sqrt ⟨1, 0⟩ = ⟨1, 0⟩ := by
  have := Q2.sqrt_sq 1 (by norm_num)
  norm_num at this
  exact this

theorem q2_sqrt_two : Q2.sqrt ⟨2, 0⟩ = ⟨0, 1⟩ := by
  have := Q2.sqrt_two_mul_sq 1 (by norm_num)
  norm_num at this
  exact this

theorem q2_sqrt_disp : Q2.sqrt ⟨625/36, 0⟩ = ⟨25/6, 0⟩ := by
  have := Q2.sqrt_sq (25/6) (by norm_num)
  norm_num at this
  exact this

theorem length_eq_one (v : Vec3Q2) (h : Vec3Q2.lengthSq v = ⟨1, 0⟩) :
    Vec3Q2.length v = ⟨1, 0⟩ := by
  rw [Vec3Q2.length, h, q2_sqrt_one]

theorem length_eq_sqrt_two (v : Vec3Q2) (h : Vec3Q2.lengthSq v = ⟨2, 0⟩) :
    Vec3Q2.length v = ⟨0, 1⟩ := by
  rw [Vec3Q2.length, h, q2_sqrt_two]

theorem length_eq_disp (v : Vec3Q2) (h : Vec3Q2.lengthSq v = ⟨625/36, 0⟩) :
    Vec3Q2.length v = Q2.ofRat (250 * TIME_STEP) := by
  rw [Vec3Q2.length, h, q2_sqrt_disp]
  norm_num [Q2.ofRat, TIME_STEP, Q2.mk.injEq]

theorem playerDirection_mem (kb : KeyInput) : playerDirection kb ∈ directionList := by
  unfold playerDirection
  cases h1 : action_pressed ActionName.move_left kb <;>
    cases h2 : action_pressed ActionName.move_right kb <;>
      cases h3 : action_pressed ActionName.move_up kb <;>
        cases h4 : action_pressed ActionName.move_down kb <;>
          norm_num [directionList, Vec3Q2.zero, Q2.zero, Q2.ofRat, Q2.add, Q2.sub,
            Vec3Q2.mk.injEq, Q2.mk.injEq]

theorem Q2.add_sub_cancel_q (x y : Q2) : (x.add y).sub x = y := by
  cases x
  cases y
  simp only [Q2.add, Q2.sub, Q2.mk.injEq]
  constructor <;> ring

theorem Q2.add_zero_q (x : Q2) : x.add Q2.zero = x := by
  cases x
  simp only [Q2.add, Q2.zero, Q2.mk.injEq]
  constructor <;> ring

theorem Q2.zero_mul_q (c : Q2) : Q2.zero.mul c = Q2.zero := by
  simp only [Q2.mul, Q2.zero, Q2.mk.injEq]
  constructor <;> ring

theorem Vec3Q2.add_sub_cancel (t v : Vec3Q2) : (t.add v).sub t = v := by
  cases t
  cases v
  simp only [Vec3Q2.add, Vec3Q2.sub, Vec3Q2.mk.injEq]
  exact ⟨Q2.add_sub_cancel_q _ _, Q2.add_sub_cancel_q _ _, Q2.add_sub_cancel_q _ _⟩

theorem Vec3Q2.add_zero_vec (t : Vec3Q2) : t.add Vec3Q2.zero = t := by
  cases t
  simp only [Vec3Q2.add, Vec3Q2.zero, Vec3Q2.mk.injEq]
  exact ⟨Q2.add_zero_q _, Q2.add_zero_q _, Q2.add_zero_q _⟩

theorem Vec3Q2.zero_scale (c : Q2) : Vec3Q2.zero.scale c = Vec3Q2.zero := by
  simp only [Vec3Q2.scale, Vec3Q2.zero, Vec3Q2.mk.injEq]
  exact ⟨Q2.zero_mul_q _, Q2.zero_mul_q _, Q2.zero_mul_q _⟩

theorem disp_left :
    ((⟨⟨-1, 0⟩, ⟨0, 0⟩, ⟨0, 0⟩⟩ : Vec3Q2).normalize_or_zero).scale (Q2.ofRat (250 * TIME_STEP))
      = (⟨⟨-25/6, 0⟩, ⟨0, 0⟩, ⟨0, 0⟩⟩ : Vec3Q2) := by
  rw [Vec3Q2.normalize_or_zero,
    if_neg (by norm_num [Vec3Q2.zero, Q2.zero, Vec3Q2.mk.injEq, Q2.mk.injEq]),
    length_eq_one _ (by norm_num [Vec3Q2.lengthSq, Q2.mul, Q2.add, Q2.mk.injEq])]
  norm_num [Vec3Q2.scale, Q2.inv, Q2.mul, Q2.ofRat, TIME_STEP, Vec3Q2.mk.injEq, Q2.mk.injEq]

theorem disp_right :
    ((⟨⟨1, 0⟩, ⟨0, 0⟩, ⟨0, 0⟩⟩ : Vec3Q2).normalize_or_zero).scale (Q2.ofRat (250 * TIME_STEP))
      = (⟨⟨25/6, 0⟩, ⟨0, 0⟩, ⟨0, 0⟩⟩ : Vec3Q2) := by
  rw [Vec3Q2.normalize_or_zero,
    if_neg (by norm_num [Vec3Q2.zero, Q2.zero, Vec3Q2.mk.injEq, Q2.mk.injEq]),
    length_eq_one _ (by norm_num [Vec3Q2.lengthSq, Q2.mul, Q2.add, Q2.mk.injEq])]
  norm_num [Vec3Q2.scale, Q2.inv, Q2.mul, Q2.ofRat, TIME_STEP, Vec3Q2.mk.injEq, Q2.mk.injEq]

theorem disp_up :
    ((⟨⟨0, 0⟩, ⟨1, 0⟩, ⟨0, 0⟩⟩ : Vec3Q2).normalize_or_zero).scale (Q2.ofRat (250 * TIME_STEP))
      = (⟨⟨0, 0⟩, ⟨25/6, 0⟩, ⟨0, 0⟩⟩ : Vec3Q2) := by
  rw [Vec3Q2.normalize_or_zero,
    if_neg (by norm_num [Vec3Q2.zero, Q2.zero, Vec3Q2.mk.injEq, Q2.mk.injEq]),
    length_eq_one _ (by norm_num [Vec3Q2.lengthSq, Q2.mul, Q2.add, Q2.mk.injEq])]
  norm_num [Vec3Q2.scale, Q2.inv, Q2.mul, Q2.ofRat, TIME_STEP, Vec3Q2.mk.injEq, Q2.mk.injEq]

theorem disp_down :
    ((⟨⟨0, 0⟩, ⟨-1, 0⟩, ⟨0, 0⟩⟩ : Vec3Q2).normalize_or_zero).scale (Q2.ofRat (250 * TIME_STEP))
      = (⟨⟨0, 0⟩, ⟨-25/6, 0⟩, ⟨0, 0⟩⟩ : Vec3Q2) := by
  rw [Vec3Q2.normalize_or_zero,
    if_neg (by norm_num [Vec3Q2.zero, Q2.zero, Vec3Q2.mk.injEq, Q2.mk.injEq]),
    length_eq_one _ (by norm_num [Vec3Q2.lengthSq, Q2.mul, Q2.add, Q2.mk.injEq])]
  norm_num [Vec3Q2.scale, Q2.inv, Q2.mul, Q2.ofRat, TIME_STEP, Vec3Q2.mk.injEq, Q2.mk.injEq]

theorem disp_ul :
    ((⟨⟨-1, 0⟩, ⟨1, 0⟩, ⟨0, 0⟩⟩ : Vec3Q2).normalize_or_zero).scale (Q2.ofRat (250 * TIME_STEP))
      = (⟨⟨0, -25/12⟩, ⟨0, 25/12⟩, ⟨0, 0⟩⟩ : Vec3Q2) := by
  rw [Vec3Q2.normalize_or_zero,
    if_neg (by norm_num [Vec3Q2.zero, Q2.zero, Vec3Q2.mk.injEq, Q2.mk.injEq]),
    length_eq_sqrt_two _ (by norm_num [Vec3Q2.lengthSq, Q2.mul, Q2.add, Q2.mk.injEq])]
  norm_num [Vec3Q2.scale, Q2.inv, Q2.mul, Q2.ofRat, TIME_STEP, Vec3Q2.mk.injEq, Q2.mk.injEq]

theorem disp_ur :
    ((⟨⟨1, 0⟩, ⟨1, 0⟩, ⟨0, 0⟩⟩ : Vec3Q2).normalize_or_zero).scale (Q2.ofRat (250 * TIME_STEP))
      = (⟨⟨0, 25/12⟩, ⟨0, 25/12⟩, ⟨0, 0⟩⟩ : Vec3Q2) := by
  rw [Vec3Q2.normalize_or_zero,
    if_neg (by norm_num [Vec3Q2.zero, Q2.zero, Vec3Q2.mk.injEq, Q2.mk.injEq]),
    length_eq_sqrt_two _ (by norm_num [Vec3Q2.lengthSq, Q2.mul, Q2.add, Q2.mk.injEq])]
  norm_num [Vec3Q2.scale, Q2.inv, Q2.mul, Q2.ofRat, TIME_STEP, Vec3Q2.mk.injEq, Q2.mk.injEq]

theorem disp_dl :
    ((⟨⟨-1, 0⟩, ⟨-1, 0⟩, ⟨0, 0⟩⟩ : Vec3Q2).normalize_or_zero).scale (Q2.ofRat (250 * TIME_STEP))
      = (⟨⟨0, -25/12⟩, ⟨0, -25/12⟩, ⟨0, 0⟩⟩ : Vec3Q2) := by
  rw [Vec3Q2.normalize_or_zero,
    if_neg (by norm_num [Vec3Q2.zero, Q2.zero, Vec3Q2.mk.injEq, Q2.mk.injEq]),
    length_eq_sqrt_two _ (by norm_num [Vec3Q2.lengthSq, Q2.mul, Q2.add, Q2.mk.injEq])]
  norm_num [Vec3Q2.scale, Q2.inv, Q2.mul, Q2.ofRat, TIME_STEP, Vec3Q2.mk.injEq, Q2.mk.injEq]

theorem disp_dr :
    ((⟨⟨1, 0⟩, ⟨-1, 0⟩, ⟨0, 0⟩⟩ : Vec3Q2).normalize_or_zero).scale (Q2.ofRat (250 * TIME_STEP))
      = (⟨⟨0, 25/12⟩, ⟨0, -25/12⟩, ⟨0, 0⟩⟩ : Vec3Q2) := by
  rw [Vec3Q2.normalize_or_zero,
    if_neg (by norm_num [Vec3Q2.zero, Q2.zero, Vec3Q2.mk.injEq, Q2.mk.injEq]),
    length_eq_sqrt_two _ (by norm_num [Vec3Q2.lengthSq, Q2.mul, Q2.add, Q2.mk.injEq])]
  norm_num [Vec3Q2.scale, Q2.inv, Q2.mul, Q2.ofRat, TIME_STEP, Vec3Q2.mk.injEq, Q2.mk.injEq]

theorem not_shift_tile (c : ℚ) (hc : c = 25/6 ∨ c = -25/6) (k : ℤ) :
    c ≠ (k : ℚ) * TILE_SIZE := by
  intro h
  simp only [TILE_SIZE, SCALE] at h
  rcases hc with hc | hc <;> subst hc
  · have h288 : (k : ℚ) * 288 = 25 := by linarith
    have hz : (k * 288 : ℤ) = 25 := by exact_mod_cast h288
    omega
  · have h288 : (k : ℚ) * 288 = -25 := by linarith
    have hz : (k * 288 : ℤ) = -25 := by exact_mod_cast h288
    omega

theorem off_grid_step (t w : Vec3Q2)
    (hx : TileAligned t.x) (hy : TileAligned t.y)
    (hw : (((w.x.a = 25/6 ∨ w.x.a = -25/6) ∧ w.x.b = 0) ∨ w.x.b ≠ 0)
        ∨ (((w.y.a = 25/6 ∨ w.y.a = -25/6) ∧ w.y.b = 0) ∨ w.y.b ≠ 0)) :
    ¬ (TileAligned (t.add w).x ∧ TileAligned (t.add w).y) := by
  rintro ⟨hx2, hy2⟩
  obtain ⟨hb1x, k1x, hk1x⟩ := hx
  obtain ⟨hb1y, k1y, hk1y⟩ := hy
  obtain ⟨hb2x, k2x, hk2x⟩ := hx2
  obtain ⟨hb2y, k2y, hk2y⟩ := hy2
  have hax : t.x.a + w.x.a = (k2x : ℚ) * TILE_SIZE := hk2x
  have hay : t.y.a + w.y.a = (k2y : ℚ) * TILE_SIZE := hk2y
  have hbx : t.x.b + w.x.b = 0 := hb2x
  have hby : t.y.b + w.y.b = 0 := hb2y
  rcases hw with (⟨hq, -⟩ | hb) | (⟨hq, -⟩ | hb)
  · refine not_shift_tile w.x.a hq (k2x - k1x) ?_
    push_cast
    linarith
  · rw [hb1x, zero_add] at hbx
    exact hb hbx
  · refine not_shift_tile w.y.a hq (k2y - k1y) ?_
    push_cast
    linarith
  · rw [hb1y, zero_add] at hby
    exact hb hby

/-- C5 counterexample: with the player at its spawn translation (0, 0, 5),
which lies on the tile grid, and only the Right key pressed, one
fixed-timestep invocation of player_movement_system moves the player to
x = 250 * TIME_STEP = 25/6, which is not an integer multiple of
TILE_SIZE = 48; so the player's resulting translation does not lie on the
tile grid. -/
theorem player_grid_counterexample :
    ¬ (TileAligned (player_movement_system
          ⟨false, false, true, false, false, false, false, false⟩
          ⟨⟨⟨0, 0⟩, ⟨0, 0⟩, ⟨5, 0⟩⟩, false, false⟩).translation.x
       ∧ TileAligned (player_movement_system
          ⟨false, false, true, false, false, false, false, false⟩
          ⟨⟨⟨0, 0⟩, ⟨0, 0⟩, ⟨5, 0⟩⟩, false, false⟩).translation.y) := by
  intro hal
  have hdir : playerDirection ⟨false, false, true, false, false, false, false, false⟩
      = ⟨⟨1, 0⟩, ⟨0, 0⟩, ⟨0, 0⟩⟩ := by
    norm_num [playerDirection, action_pressed, Vec3Q2.zero, Q2.zero, Q2.ofRat, Q2.add,
      Q2.sub, Vec3Q2.mk.injEq, Q2.mk.injEq]
  have htr : (player_movement_system
        ⟨false, false, true, false, false, false, false, false⟩
        ⟨⟨⟨0, 0⟩, ⟨0, 0⟩, ⟨5, 0⟩⟩, false, false⟩).translation
      = (⟨⟨0, 0⟩, ⟨0, 0⟩, ⟨5, 0⟩⟩ : Vec3Q2).add
          (((playerDirection
              ⟨false, false, true, false, false, false, false, false⟩).normalize_or_zero).scale
            (Q2.ofRat (250 * TIME_STEP))) := rfl
  rw [htr, hdir, disp_right] at hal
  obtain ⟨⟨-, k, hk⟩, -⟩ := hal
  have hk2 : (0 : ℚ) + 25/6 = (k : ℚ) * TILE_SIZE := hk
  refine not_shift_tile (25/6) (Or.inl rfl) k ?_
  linarith

theorem blt_tenth_one : Q2.blt (Q2.ofRat (1 / 10)) ⟨1, 0⟩ = true := by
  norm_num [Q2.blt, Q2.sub, Q2.nonneg, Q2.ofRat, Q2.mk.injEq]

theorem blt_tenth_sqrt2 : Q2.blt (Q2.ofRat (1 / 10)) ⟨0, 1⟩ = true := by
  norm_num [Q2.blt, Q2.sub, Q2.nonneg, Q2.ofRat, Q2.mk.injEq]

theorem blt_tenth_zero : Q2.blt (Q2.ofRat (1 / 10)) ⟨0, 0⟩ = false := by
  norm_num [Q2.blt, Q2.sub, Q2.nonneg, Q2.ofRat, Q2.mk.injEq]

theorem length_zero_vec : Vec3Q2.length ⟨⟨0, 0⟩, ⟨0, 0⟩, ⟨0, 0⟩⟩ = ⟨0, 0⟩ := by
  rw [Vec3Q2.length,
    show Vec3Q2.lengthSq ⟨⟨0, 0⟩, ⟨0, 0⟩, ⟨0, 0⟩⟩ = ⟨0, 0⟩ from by
      norm_num [Vec3Q2.lengthSq, Q2.mul, Q2.add, Q2.mk.injEq],
    q2_sqrt_zero]

theorem normalize_zero_vec :
    (⟨⟨0, 0⟩, ⟨0, 0⟩, ⟨0, 0⟩⟩ : Vec3Q2).normalize_or_zero = Vec3Q2.zero := by
  rw [Vec3Q2.normalize_or_zero]
  split
  · rfl
  · next hne => exact absurd rfl hne

/-- C5 (amended): the player does not stay on the tile grid.  When no
movement input is effective (direction zero) the translation is unchanged;
but whenever the direction is nonzero, a fixed-timestep invocation of
player_movement_system moves a player whose x and y translation lie on
integer multiples of TILE_SIZE to a position that does not: the per-step
displacement is the normalized direction times 250 * TIME_STEP, which is
never a nonzero multiple of the 48-pixel tile size (only the grid-snapped
highlight of C4 stays tile-aligned). -/
theorem player_movement_off_grid (kb : KeyInput) (st : PlayerMoveState) :
    (playerDirection kb = Vec3Q2.zero →
      (player_movement_system kb st).translation = st.translation)
    ∧ (playerDirection kb ≠ Vec3Q2.zero →
        TileAligned st.translation.x → TileAligned st.translation.y →
        ¬ (TileAligned (player_movement_system kb st).translation.x
           ∧ TileAligned (player_movement_system kb st).translation.y)) := by
  have htr : (player_movement_system kb st).translation
      = st.translation.add (((playerDirection kb).normalize_or_zero).scale
          (Q2.ofRat (250 * TIME_STEP))) := rfl
  have hmem := playerDirection_mem kb
  simp only [directionList, List.mem_cons, List.not_mem_nil, or_false] at hmem
  rcases hmem with h|h|h|h|h|h|h|h|h
  · refine ⟨fun _ => ?_, fun hne => absurd h hne⟩
    rw [htr, h, normalize_zero_vec, Vec3Q2.zero_scale]
    exact Vec3Q2.add_zero_vec st.translation
  · refine ⟨fun h0 => absurd (h.symm.trans h0) (by norm_num [Vec3Q2.zero, Q2.zero, Vec3Q2.mk.injEq, Q2.mk.injEq]), fun _ hx hy => ?_⟩
    rw [htr, h, disp_left]
    exact off_grid_step st.translation _ hx hy (Or.inl (Or.inl ⟨Or.inr rfl, rfl⟩))
  · refine ⟨fun h0 => absurd (h.symm.trans h0) (by norm_num [Vec3Q2.zero, Q2.zero, Vec3Q2.mk.injEq, Q2.mk.injEq]), fun _ hx hy => ?_⟩
    rw [htr, h, disp_right]
    exact off_grid_step st.translation _ hx hy (Or.inl (Or.inl ⟨Or.inl rfl, rfl⟩))
  · refine ⟨fun h0 => absurd (h.symm.trans h0) (by norm_num [Vec3Q2.zero, Q2.zero, Vec3Q2.mk.injEq, Q2.mk.injEq]), fun _ hx hy => ?_⟩
    rw [htr, h, disp_up]
    exact off_grid_step st.translation _ hx hy (Or.inr (Or.inl ⟨Or.inl rfl, rfl⟩))
  · refine ⟨fun h0 => absurd (h.symm.trans h0) (by norm_num [Vec3Q2.zero, Q2.zero, Vec3Q2.mk.injEq, Q2.mk.injEq]), fun _ hx hy => ?_⟩
    rw [htr, h, disp_down]
    exact off_grid_step st.translation _ hx hy (Or.inr (Or.inl ⟨Or.inr rfl, rfl⟩))
  · refine ⟨fun h0 => absurd (h.symm.trans h0) (by norm_num [Vec3Q2.zero, Q2.zero, Vec3Q2.mk.injEq, Q2.mk.injEq]), fun _ hx hy => ?_⟩
    rw [htr, h, disp_ul]
    exact off_grid_step st.translation _ hx hy (Or.inl (Or.inr (by norm_num)))
  · refine ⟨fun h0 => absurd (h.symm.trans h0) (by norm_num [Vec3Q2.zero, Q2.zero, Vec3Q2.mk.injEq, Q2.mk.injEq]), fun _ hx hy => ?_⟩
    rw [htr, h, disp_ur]
    exact off_grid_step st.translation _ hx hy (Or.inl (Or.inr (by norm_num)))
  · refine ⟨fun h0 => absurd (h.symm.trans h0) (by norm_num [Vec3Q2.zero, Q2.zero, Vec3Q2.mk.injEq, Q2.mk.injEq]), fun _ hx hy => ?_⟩
    rw [htr, h, disp_dl]
    exact off_grid_step st.translation _ hx hy (Or.inl (Or.inr (by norm_num)))
  · refine ⟨fun h0 => absurd (h.symm.trans h0) (by norm_num [Vec3Q2.zero, Q2.zero, Vec3Q2.mk.injEq, Q2.mk.injEq]), fun _ hx hy => ?_⟩
    rw [htr, h, disp_dr]
    exact off_grid_step st.translation _ hx hy (Or.inl (Or.inr (by norm_num)))

/-- C6: in every fixed-timestep invocation of player_movement_system the
magnitude of the player's displacement is 0 (when no movement key is held or
the keys cancel, i.e. the direction is zero) or exactly 250 * TIME_STEP
(the direction is normalized before scaling, so diagonal movement is not
faster), and the Animation flag is set to true exactly when the direction
length exceeds 0.1, which over the nine reachable directions happens exactly
when the direction is nonzero. -/
theorem player_speed (kb : KeyInput) (st : PlayerMoveState) :
    (Vec3Q2.length ((player_movement_system kb st).translation.sub st.translation)
        = Q2.ofRat 0
      ∨ Vec3Q2.length ((player_movement_system kb st).translation.sub st.translation)
        = Q2.ofRat (250 * TIME_STEP))
    ∧ ((player_movement_system kb st).animation = true
        ↔ Q2.blt (Q2.ofRat (1 / 10)) (playerDirection kb).length = true)
    ∧ ((player_movement_system kb st).animation = true ↔ playerDirection kb ≠ Vec3Q2.zero)
    ∧ (playerDirection kb = Vec3Q2.zero →
        (player_movement_system kb st).translation = st.translation)
    ∧ (playerDirection kb ≠ Vec3Q2.zero →
        Vec3Q2.length ((player_movement_system kb st).translation.sub st.translation)
          = Q2.ofRat (250 * TIME_STEP)) := by
  have hδ : (player_movement_system kb st).translation.sub st.translation
      = ((playerDirection kb).normalize_or_zero).scale (Q2.ofRat (250 * TIME_STEP)) :=
    Vec3Q2.add_sub_cancel st.translation _
  have htr : (player_movement_system kb st).translation
      = st.translation.add (((playerDirection kb).normalize_or_zero).scale
          (Q2.ofRat (250 * TIME_STEP))) := rfl
  have hanim : (player_movement_system kb st).animation
      = Q2.blt (Q2.ofRat (1 / 10)) (playerDirection kb).length := rfl
  have hmem := playerDirection_mem kb
  simp only [directionList, List.mem_cons, List.not_mem_nil, or_false] at hmem
  rcases hmem with h|h|h|h|h|h|h|h|h
  · have hzero : ((playerDirection kb).normalize_or_zero).scale (Q2.ofRat (250 * TIME_STEP))
        = Vec3Q2.zero := by
      rw [h, normalize_zero_vec, Vec3Q2.zero_scale]
    refine ⟨Or.inl ?_, by rw [hanim], ?_, fun _ => ?_, fun hne => absurd h hne⟩
    · rw [hδ, hzero]
      rw [show (Vec3Q2.zero : Vec3Q2) = ⟨⟨0, 0⟩, ⟨0, 0⟩, ⟨0, 0⟩⟩ from rfl, length_zero_vec]
      norm_num [Q2.ofRat, Q2.mk.injEq]
    · rw [hanim, h, show Vec3Q2.length ⟨⟨0, 0⟩, ⟨0, 0⟩, ⟨0, 0⟩⟩ = ⟨0, 0⟩ from length_zero_vec,
        blt_tenth_zero]
      constructor
      · intro hb
        exact absurd hb (by norm_num)
      · intro hne
        exact absurd (show (⟨⟨0, 0⟩, ⟨0, 0⟩, ⟨0, 0⟩⟩ : Vec3Q2) = Vec3Q2.zero from rfl) hne
    · rw [htr, h, normalize_zero_vec, Vec3Q2.zero_scale]
      exact Vec3Q2.add_zero_vec st.translation
  · have hld : Vec3Q2.length (⟨⟨-25/6, 0⟩, ⟨0, 0⟩, ⟨0, 0⟩⟩ : Vec3Q2) = Q2.ofRat (250 * TIME_STEP) :=
      length_eq_disp _ (by norm_num [Vec3Q2.lengthSq, Q2.mul, Q2.add, Q2.mk.injEq])
    have hlen : Vec3Q2.length (⟨⟨-1, 0⟩, ⟨0, 0⟩, ⟨0, 0⟩⟩ : Vec3Q2) = ⟨1, 0⟩ :=
      length_eq_one _ (by norm_num [Vec3Q2.lengthSq, Q2.mul, Q2.add, Q2.mk.injEq])
    refine ⟨Or.inr ?_, by rw [hanim], ?_, fun h0 => absurd (h.symm.trans h0) (by norm_num [Vec3Q2.zero, Q2.zero, Vec3Q2.mk.injEq, Q2.mk.injEq]),
      fun _ => ?_⟩
    · rw [hδ, h, disp_left]
      exact hld
    · rw [hanim, h, hlen, blt_tenth_one]
      simp only [true_iff]
      norm_num [Vec3Q2.zero, Q2.zero, Vec3Q2.mk.injEq, Q2.mk.injEq]
    · rw [hδ, h, disp_left]
      exact hld
  · have hld : Vec3Q2.length (⟨⟨25/6, 0⟩, ⟨0, 0⟩, ⟨0, 0⟩⟩ : Vec3Q2) = Q2.ofRat (250 * TIME_STEP) :=
      length_eq_disp _ (by norm_num [Vec3Q2.lengthSq, Q2.mul, Q2.add, Q2.mk.injEq])
    have hlen : Vec3Q2.length (⟨⟨1, 0⟩, ⟨0, 0⟩, ⟨0, 0⟩⟩ : Vec3Q2) = ⟨1, 0⟩ :=
      length_eq_one _ (by norm_num [Vec3Q2.lengthSq, Q2.mul, Q2.add, Q2.mk.injEq])
    refine ⟨Or.inr ?_, by rw [hanim], ?_, fun h0 => absurd (h.symm.trans h0) (by norm_num [Vec3Q2.zero, Q2.zero, Vec3Q2.mk.injEq, Q2.mk.injEq]),
      fun _ => ?_⟩
    · rw [hδ, h, disp_right]
      exact hld
    · rw [hanim, h, hlen, blt_tenth_one]
      simp only [true_iff]
      norm_num [Vec3Q2.zero, Q2.zero, Vec3Q2.mk.injEq, Q2.mk.injEq]
    · rw [hδ, h, disp_right]
      exact hld
  · have hld : Vec3Q2.length (⟨⟨0, 0⟩, ⟨25/6, 0⟩, ⟨0, 0⟩⟩ : Vec3Q2) = Q2.ofRat (250 * TIME_STEP) :=
      length_eq_disp _ (by norm_num [Vec3Q2.lengthSq, Q2.mul, Q2.add, Q2.mk.injEq])
    have hlen : Vec3Q2.length (⟨⟨0, 0⟩, ⟨1, 0⟩, ⟨0, 0⟩⟩ : Vec3Q2) = ⟨1, 0⟩ :=
      length_eq_one _ (by norm_num [Vec3Q2.lengthSq, Q2.mul, Q2.add, Q2.mk.injEq])
    refine ⟨Or.inr ?_, by rw [hanim], ?_, fun h0 => absurd (h.symm.trans h0) (by norm_num [Vec3Q2.zero, Q2.zero, Vec3Q2.mk.injEq, Q2.mk.injEq]),
      fun _ => ?_⟩
    · rw [hδ, h, disp_up]
      exact hld
    · rw [hanim, h, hlen, blt_tenth_one]
      simp only [true_iff]
      norm_num [Vec3Q2.zero, Q2.zero, Vec3Q2.mk.injEq, Q2.mk.injEq]
    · rw [hδ, h, disp_up]
      exact hld
  · have hld : Vec3Q2.length (⟨⟨0, 0⟩, ⟨-25/6, 0⟩, ⟨0, 0⟩⟩ : Vec3Q2) = Q2.ofRat (250 * TIME_STEP) :=
      length_eq_disp _ (by norm_num [Vec3Q2.lengthSq, Q2.mul, Q2.add, Q2.mk.injEq])
    have hlen : Vec3Q2.length (⟨⟨0, 0⟩, ⟨-1, 0⟩, ⟨0, 0⟩⟩ : Vec3Q2) = ⟨1, 0⟩ :=
      length_eq_one _ (by norm_num [Vec3Q2.lengthSq, Q2.mul, Q2.add, Q2.mk.injEq])
    refine ⟨Or.inr ?_, by rw [hanim], ?_, fun h0 => absurd (h.symm.trans h0) (by norm_num [Vec3Q2.zero, Q2.zero, Vec3Q2.mk.injEq, Q2.mk.injEq]),
      fun _ => ?_⟩
    · rw [hδ, h, disp_down]
      exact hld
    · rw [hanim, h, hlen, blt_tenth_one]
      simp only [true_iff]
      norm_num [Vec3Q2.zero, Q2.zero, Vec3Q2.mk.injEq, Q2.mk.injEq]
    · rw [hδ, h, disp_down]
      exact hld
  · have hld : Vec3Q2.length (⟨⟨0, -25/12⟩, ⟨0, 25/12⟩, ⟨0, 0⟩⟩ : Vec3Q2) = Q2.ofRat (250 * TIME_STEP) :=
      length_eq_disp _ (by norm_num [Vec3Q2.lengthSq, Q2.mul, Q2.add, Q2.mk.injEq])
    have hlen : Vec3Q2.length (⟨⟨-1, 0⟩, ⟨1, 0⟩, ⟨0, 0⟩⟩ : Vec3Q2) = ⟨0, 1⟩ :=
      length_eq_sqrt_two _ (by norm_num [Vec3Q2.lengthSq, Q2.mul, Q2.add, Q2.mk.injEq])
    refine ⟨Or.inr ?_, by rw [hanim], ?_, fun h0 => absurd (h.symm.trans h0) (by norm_num [Vec3Q2.zero, Q2.zero, Vec3Q2.mk.injEq, Q2.mk.injEq]),
      fun _ => ?_⟩
    · rw [hδ, h, disp_ul]
      exact hld
    · rw [hanim, h, hlen, blt_tenth_sqrt2]
      simp only [true_iff]
      norm_num [Vec3Q2.zero, Q2.zero, Vec3Q2.mk.injEq, Q2.mk.injEq]
    · rw [hδ, h, disp_ul]
      exact hld
  · have hld : Vec3Q2.length (⟨⟨0, 25/12⟩, ⟨0, 25/12⟩, ⟨0, 0⟩⟩ : Vec3Q2) = Q2.ofRat (250 * TIME_STEP) :=
      length_eq_disp _ (by norm_num [Vec3Q2.lengthSq, Q2.mul, Q2.add, Q2.mk.injEq])
    have hlen : Vec3Q2.length (⟨⟨1, 0⟩, ⟨1, 0⟩, ⟨0, 0⟩⟩ : Vec3Q2) = ⟨0, 1⟩ :=
      length_eq_sqrt_two _ (by norm_num [Vec3Q2.lengthSq, Q2.mul, Q2.add, Q2.mk.injEq])
    refine ⟨Or.inr ?_, by rw [hanim], ?_, fun h0 => absurd (h.symm.trans h0) (by norm_num [Vec3Q2.zero, Q2.zero, Vec3Q2.mk.injEq, Q2.mk.injEq]),
      fun _ => ?_⟩
    · rw [hδ, h, disp_ur]
      exact hld
    · rw [hanim, h, hlen, blt_tenth_sqrt2]
      simp only [true_iff]
      norm_num [Vec3Q2.zero, Q2.zero, Vec3Q2.mk.injEq, Q2.mk.injEq]
    · rw [hδ, h, disp_ur]
      exact hld
  · have hld : Vec3Q2.length (⟨⟨0, -25/12⟩, ⟨0, -25/12⟩, ⟨0, 0⟩⟩ : Vec3Q2) = Q2.ofRat (250 * TIME_STEP) :=
      length_eq_disp _ (by norm_num [Vec3Q2.lengthSq, Q2.mul, Q2.add, Q2.mk.injEq])
    have hlen : Vec3Q2.length (⟨⟨-1, 0⟩, ⟨-1, 0⟩, ⟨0, 0⟩⟩ : Vec3Q2) = ⟨0, 1⟩ :=
      length_eq_sqrt_two _ (by norm_num [Vec3Q2.lengthSq, Q2.mul, Q2.add, Q2.mk.injEq])
    refine ⟨Or.inr ?_, by rw [hanim], ?_, fun h0 => absurd (h.symm.trans h0) (by norm_num [Vec3Q2.zero, Q2.zero, Vec3Q2.mk.injEq, Q2.mk.injEq]),
      fun _ => ?_⟩
    · rw [hδ, h, disp_dl]
      exact hld
    · rw [hanim, h, hlen, blt_tenth_sqrt2]
      simp only [true_iff]
      norm_num [Vec3Q2.zero, Q2.zero, Vec3Q2.mk.injEq, Q2.mk.injEq]
    · rw [hδ, h, disp_dl]
      exact hld
  · have hld : Vec3Q2.length (⟨⟨0, 25/12⟩, ⟨0, -25/12⟩, ⟨0, 0⟩⟩ : Vec3Q2) = Q2.ofRat (250 * TIME_STEP) :=
      length_eq_disp _ (by norm_num [Vec3Q2.lengthSq, Q2.mul, Q2.add, Q2.mk.injEq])
    have hlen : Vec3Q2.length (⟨⟨1, 0⟩, ⟨-1, 0⟩, ⟨0, 0⟩⟩ : Vec3Q2) = ⟨0, 1⟩ :=
      length_eq_sqrt_two _ (by norm_num [Vec3Q2.lengthSq, Q2.mul, Q2.add, Q2.mk.injEq])
    refine ⟨Or.inr ?_, by rw [hanim], ?_, fun h0 => absurd (h.symm.trans h0) (by norm_num [Vec3Q2.zero, Q2.zero, Vec3Q2.mk.injEq, Q2.mk.injEq]),
      fun _ => ?_⟩
    · rw [hδ, h, disp_dr]
      exact hld
    · rw [hanim, h, hlen, blt_tenth_sqrt2]
      simp only [true_iff]
      norm_num [Vec3Q2.zero, Q2.zero, Vec3Q2.mk.injEq, Q2.mk.injEq]
    · rw [hδ, h, disp_dr]
      exact hld

/-- Witness for C3 at a concrete entity: timer 0/1 non-repeating ticked by 1
finishes, Animation true, atlas of 4 textures, index 2 becomes (2+1) mod 4. -/
theorem animate_sprite_step_witness :
    ((fun _ : ℕ => some 4) ((⟨⟨0, 1, false, false⟩, 2, 7, true⟩ : AnimEnt).atlasHandle)
        = some 4 ∧ 0 < 4)
    ∧ ∃ e2, animStep 1 (fun _ : ℕ => some 4) ⟨⟨0, 1, false, false⟩, 2, 7, true⟩ = some e2
        ∧ e2.spriteIndex = 3 := by
  refine ⟨⟨rfl, by norm_num⟩, ?_⟩
  obtain ⟨e2, h1, h2, -, -⟩ := animate_sprite_step 1 (fun _ : ℕ => some 4)
    ⟨⟨0, 1, false, false⟩, 2, 7, true⟩ 4 rfl (by norm_num)
  refine ⟨e2, h1, ?_⟩
  have hfin : ((⟨0, 1, false, false⟩ : Timer).tick 1).finished = true := by
    norm_num [Timer.tick]
  have h3 := h2 hfin rfl
  simpa using h3.1

/-- Witness for C8 at a fully grown crop: the invariant hypothesis holds and
is preserved. -/
theorem growable_invariant_witness :
    ((⟨⟨0, 1, false, false⟩, 2, ⟨2, 2⟩, 1⟩ : CropEnt).growable.growth_state
        ≤ (⟨⟨0, 1, false, false⟩, 2, ⟨2, 2⟩, 1⟩ : CropEnt).growable.max_growth_state)
    ∧ (growStep 1 ⟨⟨0, 1, false, false⟩, 2, ⟨2, 2⟩, 1⟩).growable.growth_state
        ≤ (growStep 1 ⟨⟨0, 1, false, false⟩, 2, ⟨2, 2⟩, 1⟩).growable.max_growth_state :=
  ⟨le_refl _, (growable_invariant 1 ⟨⟨0, 1, false, false⟩, 2, ⟨2, 2⟩, 1⟩ ⟨0, 0, 0⟩
      (le_refl _)).2.1⟩

/-- Witness for C9 at a single crop on a different tile than the highlight:
the distinctness hypothesis holds and the seed branch leaves the crop list
unchanged. -/
theorem seed_spawn_iff_witness :
    (([(⟨⟨0, 0, 0⟩, 0, ⟨0, 2⟩⟩ : CropState)]).Pairwise
        (fun c1 c2 => sameTile c1.translation c2.translation = false))
    ∧ (use_tool_system true false true ⟨48, 48, 1⟩ [⟨⟨0, 0, 0⟩, 0, ⟨0, 2⟩⟩]).1
        = [⟨⟨0, 0, 0⟩, 0, ⟨0, 2⟩⟩] :=
  ⟨by simp, (seed_spawn_iff true ⟨48, 48, 1⟩ [⟨⟨0, 0, 0⟩, 0, ⟨0, 2⟩⟩] (by simp)).2.1⟩

/-- Witness for C10 at a single crop: the index bound holds and the water
branch spawns nothing. -/
theorem water_sets_hydration_witness :
    (0 < ([(⟨⟨0, 0, 0⟩, 0, ⟨0, 2⟩⟩ : CropState)] : List CropState).length)
    ∧ (use_tool_system true true false ⟨0, 0, 1⟩ [⟨⟨0, 0, 0⟩, 0, ⟨0, 2⟩⟩]).2 = none :=
  ⟨by norm_num,
   (water_sets_hydration ⟨0, 0, 1⟩ [⟨⟨0, 0, 0⟩, 0, ⟨0, 2⟩⟩] 0 (by norm_num)).2.1⟩

/-- Witness for the amended C5 at a concrete diagonal input: with Right and
Up pressed, the player leaves its grid-aligned spawn position. -/
theorem player_movement_off_grid_witness :
    ¬ (TileAligned (player_movement_system
          ⟨false, false, true, false, true, false, false, false⟩
          ⟨⟨⟨0, 0⟩, ⟨0, 0⟩, ⟨5, 0⟩⟩, false, false⟩).translation.x
       ∧ TileAligned (player_movement_system
          ⟨false, false, true, false, true, false, false, false⟩
          ⟨⟨⟨0, 0⟩, ⟨0, 0⟩, ⟨5, 0⟩⟩, false, false⟩).translation.y) :=
  (player_movement_off_grid ⟨false, false, true, false, true, false, false, false⟩
      ⟨⟨⟨0, 0⟩, ⟨0, 0⟩, ⟨5, 0⟩⟩, false, false⟩).2
    (by norm_num [playerDirection, action_pressed, Vec3Q2.zero, Q2.zero, Q2.ofRat, Q2.add,
      Q2.sub, Vec3Q2.mk.injEq, Q2.mk.injEq])
    ⟨rfl, 0, by norm_num [TILE_SIZE, SCALE]⟩
    ⟨rfl, 0, by norm_num [TILE_SIZE, SCALE]⟩

/-- Witness for C6 at a concrete input: with Right pressed, the displacement
magnitude is exactly 250 * TIME_STEP. -/
theorem player_speed_witness :
    Vec3Q2.length ((player_movement_system
        ⟨false, false, true, false, false, false, false, false⟩
        ⟨⟨⟨0, 0⟩, ⟨0, 0⟩, ⟨5, 0⟩⟩, false, false⟩).translation.sub
      (⟨⟨⟨0, 0⟩, ⟨0, 0⟩, ⟨5, 0⟩⟩, false, false⟩ : PlayerMoveState).translation)
      = Q2.ofRat (250 * TIME_STEP) :=
  (player_speed ⟨false, false, true, false, false, false, false, false⟩
      ⟨⟨⟨0, 0⟩, ⟨0, 0⟩, ⟨5, 0⟩⟩, false, false⟩).2.2.2.2
    (by norm_num [playerDirection, action_pressed, Vec3Q2.zero, Q2.zero, Q2.ofRat, Q2.add,
      Q2.sub, Vec3Q2.mk.injEq, Q2.mk.injEq])
